import Mathlib

/-!
# Sunshine: avoidance, collision resolution, projectile culling, win/loss

A shallow embedding of `game/src/main.cpp`.

* C++ `float` is idealised as an arbitrary linearly ordered field `F`
  (exact arithmetic, no NaN, no rounding); concrete evaluations use `ℚ`.
* The headers `Math.h`, `Collision.h`, `Physics.h`, `World.h` and `Nodes.h`
  that `main.cpp` includes are absent.  What it takes from them is a field
  of the parameter record `Lib` or a function argument, except the helpers
  the specification describes, which are modelled from its words.
* Mutation of a reference argument is explicit state passing; sound playback
  is a log of events.
-/

namespace Sunshine

/-! ## Data model -/

/-- A 2D vector of floats (raylib `Vector2`). -/
structure Vector2 (F : Type) where
  x : F
  y : F
deriving DecidableEq, Repr

/-- Circle as used for obstacles and colliders: `{ position, radius }`. -/
structure Circle (F : Type) where
  position : Vector2 F
  radius : F
deriving DecidableEq, Repr

/-- Axis-aligned rectangle (raylib `Rectangle`). -/
structure Rectangle (F : Type) where
  x : F
  y : F
  width : F
  height : F
deriving DecidableEq, Repr

/-- The fields of `Rigidbody` that `main.cpp` reads or writes. -/
structure Rigidbody (F : Type) where
  pos : Vector2 F
  vel : Vector2 F
  acc : Vector2 F
  dir : Vector2 F
  angularSpeed : F
deriving DecidableEq, Repr

/-- An `Entity` is a rigid body with a collider radius and health. -/
structure Entity (F : Type) extends Rigidbody F where
  radius : F
  health : F
deriving DecidableEq, Repr

/-- An `Enemy` adds the probe length used by obstacle avoidance. -/
structure Enemy (F : Type) extends Entity F where
  probeLength : F
deriving DecidableEq, Repr

/-- Originator tag of a projectile (`Projectile::PLAYER`, `Projectile::ENEMY`). -/
inductive ProjectileType where
  | PLAYER
  | ENEMY
deriving DecidableEq, Repr

/-- A projectile: an entity with an originator tag and a damage value. -/
structure Projectile (F : Type) extends Entity F where
  type : ProjectileType
  damage : F
deriving DecidableEq, Repr

/-- The `Screen` enumeration of `main.cpp`. -/
inductive Screen where
  | WIN
  | LOSE
  | GAME
deriving DecidableEq, Repr

/-- Sound requests issued by `PlaySound`, named after the loaded `Sound` variables. -/
inductive Sound where
  | playerDeathSound
  | playerHitSound
  | enemyHitSound
  | cceAttackSound
  | rceAttackSound
  | playerAttackSound
deriving DecidableEq, Repr

section Model

variable {F : Type} [LinearOrderedField F]

/-! ## Vector arithmetic (the operators `main.cpp` uses on `Vector2`) -/

instance : Zero (Vector2 F) := ⟨⟨0, 0⟩⟩
instance : Add (Vector2 F) := ⟨fun a b => ⟨a.x + b.x, a.y + b.y⟩⟩
instance : Sub (Vector2 F) := ⟨fun a b => ⟨a.x - b.x, a.y - b.y⟩⟩
instance : HMul (Vector2 F) F (Vector2 F) := ⟨fun a k => ⟨a.x * k, a.y * k⟩⟩
instance : HDiv (Vector2 F) F (Vector2 F) := ⟨fun a k => ⟨a.x / k, a.y / k⟩⟩

/-- Squared Euclidean length, used to state distances without a square root. -/
def LengthSqr (v : Vector2 F) : F := v.x * v.x + v.y * v.y

/-- The helpers and constants of the absent headers, as parameters of the model. -/
structure Lib (F : Type) where
  /-- The constant `DEG2RAD`. -/
  DEG2RAD : F
  /-- The constant `SCREEN_WIDTH`. -/
  SCREEN_WIDTH : F
  /-- The constant `SCREEN_HEIGHT`. -/
  SCREEN_HEIGHT : F
  /-- The libm square root behind `Length`. -/
  sqrtf : F → F
  /-- The libm cosine behind `Rotate`. -/
  cosf : F → F
  /-- The libm sine behind `Rotate`. -/
  sinf : F → F
  /-- The helper `Sign` of `Math.h`. -/
  Sign : F → F
  /-- The test `CheckCollisionLineCircle(p0, p1, circle)`. -/
  CheckCollisionLineCircle : Vector2 F → Vector2 F → Circle F → Bool
  /-- The two-argument test `CheckCollisionCircles(c1, c2)`. -/
  CheckCollisionCircles : Circle F → Circle F → Bool
  /-- The three-argument `CheckCollisionCircles(c1, c2, mtv)`: `some mtv` when it
  returns true (the out-parameter is only read in that case), `none` otherwise. -/
  CheckCollisionCirclesMtv : Circle F → Circle F → Option (Vector2 F)
  /-- The test `CheckCollisionPointRec(point, rec)`. -/
  CheckCollisionPointRec : Vector2 F → Rectangle F → Bool

/-- Modelled from the spec: `Length` (Math.h is absent), the Euclidean length of a
vector, through the square-root primitive. -/
def Length (L : Lib F) (v : Vector2 F) : F := L.sqrtf (LengthSqr v)

/-- Modelled from the spec: `Normalize` (Math.h is absent): the vector scaled to unit
length; a zero-length vector yields the zero vector (section 7). -/
def Normalize (L : Lib F) (v : Vector2 F) : Vector2 F :=
  if 0 < Length L v then v / Length L v else 0

/-- Modelled from the spec: `Rotate` (Math.h is absent): the vector rotated by an
angle in radians. -/
def Rotate (L : Lib F) (v : Vector2 F) (angle : F) : Vector2 F :=
  ⟨v.x * L.cosf angle - v.y * L.sinf angle, v.x * L.sinf angle + v.y * L.cosf angle⟩

/-- Modelled from the spec: `Acceleration` (Physics.h is absent), section 4.2:
returns `(targetVel - currentVel) / dt`. -/
def Acceleration (vi vf : Vector2 F) (t : F) : Vector2 F := (vf - vi) / t

/-- Modelled from the spec: `Entity::Collider()` (World.h is absent): the entity's
circle, centred at its position with its radius. -/
def Entity.Collider (e : Entity F) : Circle F := ⟨e.pos, e.radius⟩

/-- Modelled from the spec: `SCREEN_REC` (absent), the arena rectangle
`[0, width] × [0, height]`. -/
def SCREEN_REC (L : Lib F) : Rectangle F := ⟨0, 0, L.SCREEN_WIDTH, L.SCREEN_HEIGHT⟩

/-! ## `Avoid` (main.cpp, lines 19-46) -/

/-- The lambda `obstacleDetected` of `Avoid`: does the probe at `angle` degrees hit
any obstacle? -/
def obstacleDetected (L : Lib F) (rb : Rigidbody F) (probeLength : F)
    (obstacles : List (Circle F)) (angle : F) : Bool :=
  obstacles.any fun obstacle =>
    let probeEnd := rb.pos + Rotate L (Normalize L rb.vel) (angle * L.DEG2RAD) * probeLength
    L.CheckCollisionLineCircle rb.pos probeEnd obstacle

/-- The lambda `avoid` of `Avoid`: the acceleration that turns the velocity away from
the probe at `angle` degrees. -/
def avoid (L : Lib F) (rb : Rigidbody F) (dt : F) (angle : F) : Vector2 F :=
  let vf := Rotate L (Normalize L rb.vel) (rb.angularSpeed * dt * L.Sign (-angle)) * Length L rb.vel
  Acceleration rb.vel vf dt

/-- The function `Avoid`. -/
def Avoid (L : Lib F) (rb : Rigidbody F) (probeLength dt : F)
    (obstacles : List (Circle F)) : Vector2 F :=
  if obstacleDetected L rb probeLength obstacles (-15) then avoid L rb dt (-15)
  else if obstacleDetected L rb probeLength obstacles (-30) then avoid L rb dt (-30)
  else if obstacleDetected L rb probeLength obstacles 15 then avoid L rb dt 15
  else if obstacleDetected L rb probeLength obstacles 30 then avoid L rb dt 30
  else 0

/-! ## `ResolveCollisions` (main.cpp, lines 48-65) -/

/-- The arena clamp at the end of `ResolveCollisions` (lines 60-63), in source order. -/
def clampToScreen (L : Lib F) (pos : Vector2 F) : Vector2 F :=
  let pos := if pos.x < 0 then { pos with x := 0 } else pos
  let pos := if pos.y < 0 then { pos with y := 0 } else pos
  let pos := if pos.x > L.SCREEN_WIDTH then { pos with x := L.SCREEN_WIDTH } else pos
  let pos := if pos.y > L.SCREEN_HEIGHT then { pos with y := L.SCREEN_HEIGHT } else pos
  pos

/-- The function `ResolveCollisions`: the returned flag and the entity afterwards. -/
def ResolveCollisions (L : Lib F) (entity : Entity F) :
    List (Circle F) → Bool × Entity F
  | [] => (false, { entity with pos := clampToScreen L entity.pos })
  | obstacle :: rest =>
    match L.CheckCollisionCirclesMtv obstacle entity.Collider with
    | some mtv => (true, { entity with pos := entity.pos + mtv })
    | none => ResolveCollisions L entity rest

/-! ## Enemy update (main.cpp, lines 242-248) -/

/-- Lines 243 and 247: `enemy.acc = enemy.acc + Avoid(enemy, enemy.probeLength, dt,
world.obstacles)`. -/
def applyAvoidance (L : Lib F) (dt : F) (obstacles : List (Circle F))
    (enemy : Enemy F) : Enemy F :=
  { enemy with
    acc := enemy.acc + Avoid L enemy.toRigidbody enemy.probeLength dt obstacles }

/-- Lines 242-244 (and 246-248): `Traverse`, then avoidance, then `Integrate`.  The
behaviour tree (Nodes.h) and the integrator (Physics.h) are absent and are
parameters: `Traverse` is the effect of the tree on the enemy. -/
def updateEnemy (L : Lib F) (Traverse : Enemy F → Enemy F)
    (Integrate : Enemy F → F → Enemy F) (dt : F) (obstacles : List (Circle F))
    (enemy : Enemy F) : Enemy F :=
  Integrate (applyAvoidance L dt obstacles (Traverse enemy)) dt

/-! ## Projectile culling (main.cpp, lines 253-299) -/

/-- The state captured by reference in the `remove_if` predicate, with the log of
sound requests and the current screen. -/
structure Game (F : Type) where
  player : Entity F
  cce : Enemy F
  rce : Enemy F
  obstacles : List (Circle F)
  sounds : List Sound
  screen : Screen

/-- A call of `PlaySound`: the request is appended to the log. -/
def PlaySound (s : Sound) (g : Game F) : Game F :=
  { g with sounds := g.sounds ++ [s] }

/-- The predicate passed to `remove_if` (lines 255-297): whether the projectile is
removed, and the state after the call. -/
def cullPredicate (L : Lib F) (g : Game F) (projectile : Projectile F) : Bool × Game F :=
  if L.CheckCollisionCircles g.player.Collider projectile.Collider then
    if projectile.type = ProjectileType.ENEMY then
      let g := { g with player := { g.player with health := g.player.health - projectile.damage } }
      let g := PlaySound Sound.playerHitSound g
      let g := if g.player.health > 0 ∧ g.player.health - projectile.damage ≤ 0
        then PlaySound Sound.playerDeathSound g else g
      (true, g)
    else (true, g)
  else if L.CheckCollisionCircles g.cce.Collider projectile.Collider then
    if projectile.type = ProjectileType.PLAYER then
      let g := { g with cce := { g.cce with health := g.cce.health - projectile.damage } }
      (true, PlaySound Sound.enemyHitSound g)
    else (true, g)
  else if L.CheckCollisionCircles g.rce.Collider projectile.Collider then
    if projectile.type = ProjectileType.PLAYER then
      let g := { g with rce := { g.rce with health := g.rce.health - projectile.damage } }
      (true, PlaySound Sound.enemyHitSound g)
    else (true, g)
  else if g.obstacles.any (fun obstacle => L.CheckCollisionCircles obstacle projectile.Collider) then
    (true, g)
  else (!L.CheckCollisionPointRec projectile.pos (SCREEN_REC L), g)

/-- The erase/`remove_if` idiom of lines 253-299: the predicate is applied once to
each projectile in order; the projectiles it rejects are kept, in order. -/
def cullProjectiles (L : Lib F) (g : Game F) :
    List (Projectile F) → List (Projectile F) × Game F
  | [] => ([], g)
  | projectile :: rest =>
    let r := cullPredicate L g projectile
    let rs := cullProjectiles L r.2 rest
    (if r.1 then rs.1 else projectile :: rs.1, rs.2)

/-! ## Win/loss evaluation (main.cpp, lines 316-317) -/

/-- Lines 316-317: the screen after the per-tick win/loss check. -/
def evaluateScreen (g : Game F) : Game F :=
  if g.player.health ≤ 0 then { g with screen := Screen.LOSE }
  else if g.cce.health ≤ 0 ∧ g.rce.health ≤ 0 then { g with screen := Screen.WIN }
  else g

/-! ## The collision kernel as the specification describes it -/

/-- Modelled from the spec: `CircleVsCircle(a, b)`, the three-argument
`CheckCollisionCircles` of the absent Collision.h, section 4.1: the circles overlap
iff the distance between the centres is below the sum of the radii; the mtv has the
penetration depth as magnitude and the direction from the centre of `b` to the centre
of `a`; concentric circles use the fixed axis `(1, 0)`. -/
def CircleVsCircle (L : Lib F) (a b : Circle F) : Bool × Vector2 F :=
  let delta := a.position - b.position
  let distance := Length L delta
  let radiiSum := a.radius + b.radius
  let direction : Vector2 F := if distance = 0 then ⟨1, 0⟩ else delta / distance
  (decide (distance < radiiSum), direction * (radiiSum - distance))

/-- Modelled from the spec: `LineVsCircle(p0, p1, circle)` of the absent Collision.h
(section 4.1), hit flag only: the point of the segment nearest to the centre lies
within the radius. -/
def LineVsCircle (p0 p1 : Vector2 F) (circle : Circle F) : Bool :=
  let d := p1 - p0
  let f := circle.position - p0
  let t := if LengthSqr d = 0 then 0 else max 0 (min 1 ((f.x * d.x + f.y * d.y) / LengthSqr d))
  let nearest := p0 + d * t
  decide (LengthSqr (nearest - circle.position) ≤ circle.radius * circle.radius)

/-- Modelled from the spec: `PointInRect(p, rect)` of the absent Collision.h
(section 4.1): axis-aligned inclusive bounds test. -/
def PointInRect (p : Vector2 F) (rect : Rectangle F) : Bool :=
  decide (rect.x ≤ p.x ∧ p.x ≤ rect.x + rect.width ∧ rect.y ≤ p.y ∧ p.y ≤ rect.y + rect.height)

/-- The record of helpers in which the collision tests are the ones of section 4.1,
over given constants and libm primitives. -/
def specLib (DEG2RAD SCREEN_WIDTH SCREEN_HEIGHT : F) (sqrtf cosf sinf Sign : F → F) : Lib F :=
  let M : Lib F :=
    { DEG2RAD := DEG2RAD, SCREEN_WIDTH := SCREEN_WIDTH, SCREEN_HEIGHT := SCREEN_HEIGHT,
      sqrtf := sqrtf, cosf := cosf, sinf := sinf, Sign := Sign,
      CheckCollisionLineCircle := fun _ _ _ => false,
      CheckCollisionCircles := fun _ _ => false,
      CheckCollisionCirclesMtv := fun _ _ => none,
      CheckCollisionPointRec := fun _ _ => false }
  { M with
    CheckCollisionLineCircle := LineVsCircle,
    CheckCollisionCircles := fun a b => (CircleVsCircle M a b).1,
    CheckCollisionCirclesMtv := fun a b =>
      if (CircleVsCircle M a b).1 then some (CircleVsCircle M a b).2 else none,
    CheckCollisionPointRec := PointInRect }

end Model

/-! ## A concrete instance on the rationals, for evaluating the model -/

/-- Rational arena and primitives: a 1200 x 800 arena, `DEG2RAD = (22/7)/180`,
`Rat.sqrt` (exact on squares of rationals), the sign function, and the rational
point of the unit circle with half-angle tangent `t/2` in place of cosine and sine. -/
def ratLib : Lib ℚ :=
  specLib (11 / 630) 1200 800 Rat.sqrt
    (fun t => (1 - (t / 2) * (t / 2)) / (1 + (t / 2) * (t / 2)))
    (fun t => t / (1 + (t / 2) * (t / 2)))
    (fun t => if t < 0 then -1 else 1)

/-- An entity at rest at `(x, y)`, facing along the x axis. -/
def entityAt (x y radius health : ℚ) : Entity ℚ :=
  ⟨⟨⟨x, y⟩, 0, 0, ⟨1, 0⟩, 0⟩, radius, health⟩

/-- The scenario of `main`, with given health values: the player of radius 60 at
`(0.8 w, 0.8 h)`, the close-combat enemy at `(0.9 w, 0.1 h)` and the ranged-combat
enemy at `(0.1 w, 0.1 h)`, both of radius 50 and probe length 100, and one obstacle. -/
def scenario (playerHealth cceHealth rceHealth : ℚ) (screen : Screen) : Game ℚ :=
  { player := entityAt 960 640 60 playerHealth,
    cce := ⟨entityAt 1080 80 50 cceHealth, 100⟩,
    rce := ⟨entityAt 120 80 50 rceHealth, 100⟩,
    obstacles := [⟨⟨600, 400⟩, 100⟩],
    sounds := [],
    screen := screen }

/-- The scenario with full health and the player moved to (1190, 640), next to the
right edge of the arena. -/
def scenarioAtEdge : Game ℚ :=
  { scenario 100 100 100 Screen.GAME with player := entityAt 1190 640 60 100 }

/-- A projectile of radius 20 at `(x, y)`. -/
def projectileAt (x y : ℚ) (type : ProjectileType) (damage : ℚ) : Projectile ℚ :=
  ⟨entityAt x y 20 100, type, damage⟩

/-- The close-combat enemy of `main` (radius 50, probe length 100, angular speed
`200 * DEG2RAD`) at (100, 100), moving at speed 500 along (3, 4), with the acceleration
`acc` left by its behaviour tree. -/
def enemyMoving (acc : Vector2 ℚ) : Enemy ℚ :=
  ⟨⟨⟨⟨100, 100⟩, ⟨300, 400⟩, acc, ⟨3 / 5, 4 / 5⟩, 200 * (11 / 630)⟩, 50, 100⟩, 100⟩

/-! ## Basic lemmas -/

section Lemmas

variable {F : Type} [LinearOrderedField F]

theorem Vector2.add_def (a b : Vector2 F) : a + b = ⟨a.x + b.x, a.y + b.y⟩ := rfl

theorem Vector2.sub_def (a b : Vector2 F) : a - b = ⟨a.x - b.x, a.y - b.y⟩ := rfl

theorem Vector2.mul_def (a : Vector2 F) (k : F) : a * k = ⟨a.x * k, a.y * k⟩ := rfl

theorem Vector2.div_def (a : Vector2 F) (k : F) : a / k = ⟨a.x / k, a.y / k⟩ := rfl

theorem Vector2.zero_def : (0 : Vector2 F) = ⟨0, 0⟩ := rfl

theorem Vector2.zero_x : (0 : Vector2 F).x = 0 := rfl

theorem Vector2.zero_y : (0 : Vector2 F).y = 0 := rfl

theorem Vector2.eq_iff {F : Type} (a b : Vector2 F) : a = b ↔ a.x = b.x ∧ a.y = b.y := by
  cases a; cases b; simp

/-- The clamp of lines 60-63 is the componentwise `min (max · 0) bound`. -/
theorem clampToScreen_eq (L : Lib F) (pos : Vector2 F) :
    clampToScreen L pos =
      ⟨min (max pos.x 0) L.SCREEN_WIDTH, min (max pos.y 0) L.SCREEN_HEIGHT⟩ := by
  obtain ⟨x, y⟩ := pos
  have hx : (if x < 0 then (0 : F) else x) = max x 0 := by
    split_ifs with h
    · exact (max_eq_right h.le).symm
    · exact (max_eq_left (not_lt.mp h)).symm
  have hy : (if y < 0 then (0 : F) else y) = max y 0 := by
    split_ifs with h
    · exact (max_eq_right h.le).symm
    · exact (max_eq_left (not_lt.mp h)).symm
  have hmin : ∀ a b : F, (if a > b then b else a) = min a b := by
    intro a b
    split_ifs with h
    · exact (min_eq_right (le_of_lt h)).symm
    · exact (min_eq_left (not_lt.mp h)).symm
  have key : clampToScreen L ⟨x, y⟩ =
      ⟨if (if x < 0 then (0 : F) else x) > L.SCREEN_WIDTH then L.SCREEN_WIDTH
          else (if x < 0 then (0 : F) else x),
        if (if y < 0 then (0 : F) else y) > L.SCREEN_HEIGHT then L.SCREEN_HEIGHT
          else (if y < 0 then (0 : F) else y)⟩ := by
    unfold clampToScreen
    by_cases h1 : x < 0 <;> by_cases h2 : y < 0 <;> simp only [h1, h2, if_true, if_false] <;>
      split_ifs <;> rfl
  rw [key, hmin, hmin, hx, hy]

/-- With no overlapping obstacle the loop of `ResolveCollisions` falls through to the
clamp. -/
theorem ResolveCollisions_of_no_overlap (L : Lib F) (entity : Entity F)
    (obstacles : List (Circle F))
    (h : ∀ o ∈ obstacles, L.CheckCollisionCirclesMtv o entity.Collider = none) :
    ResolveCollisions L entity obstacles =
      (false, { entity with pos := clampToScreen L entity.pos }) := by
  induction obstacles with
  | nil => rfl
  | cons o rest ih =>
    have ho := h o (List.mem_cons_self _ _)
    simp only [ResolveCollisions, ho]
    exact ih (fun q hq => h q (List.mem_cons_of_mem _ hq))

/-- The loop of `ResolveCollisions` stops at the first overlapping obstacle. -/
theorem ResolveCollisions_of_first_overlap (L : Lib F) (entity : Entity F)
    (pre post : List (Circle F)) (o : Circle F) (mtv : Vector2 F)
    (hpre : ∀ q ∈ pre, L.CheckCollisionCirclesMtv q entity.Collider = none)
    (ho : L.CheckCollisionCirclesMtv o entity.Collider = some mtv) :
    ResolveCollisions L entity (pre ++ o :: post) =
      (true, { entity with pos := entity.pos + mtv }) := by
  induction pre with
  | nil => simp [ResolveCollisions, ho]
  | cons q rest ih =>
    have hq := hpre q (List.mem_cons_self _ _)
    simp only [List.cons_append, ResolveCollisions, hq]
    exact ih (fun r hr => hpre r (List.mem_cons_of_mem _ hr))

end Lemmas

/-! ## Evaluating the rational instance -/

section Evaluation

theorem ratLib_sqrtf_sq (q : ℚ) : ratLib.sqrtf (q * q) = |q| := Rat.sqrt_eq q

/-- The rational kernel on two circles whose centres are a known distance apart. -/
theorem ratLib_mtv (a b : Circle ℚ) (d : ℚ) (hd : 0 < d)
    (h : LengthSqr (a.position - b.position) = d * d) :
    ratLib.CheckCollisionCirclesMtv a b =
      if d < a.radius + b.radius
      then some ((a.position - b.position) / d * (a.radius + b.radius - d)) else none := by
  have hlen : Rat.sqrt (LengthSqr (a.position - b.position)) = d := by
    rw [h, Rat.sqrt_eq, abs_of_pos hd]
  simp [ratLib, specLib, CircleVsCircle, Length, hlen, hd.ne']

/-- The rational two-argument test on two circles whose centres are a known distance
apart. -/
theorem ratLib_overlap (a b : Circle ℚ) (d : ℚ) (hd : 0 ≤ d)
    (h : LengthSqr (a.position - b.position) = d * d) :
    ratLib.CheckCollisionCircles a b = decide (d < a.radius + b.radius) := by
  have hlen : Rat.sqrt (LengthSqr (a.position - b.position)) = d := by
    rw [h, Rat.sqrt_eq, abs_of_nonneg hd]
  simp [ratLib, specLib, CircleVsCircle, Length, hlen]

end Evaluation

/-! ## Claims about `ResolveCollisions` -/

section ResolveCollisionsClaims

variable {F : Type} [LinearOrderedField F]

/-- C1: for an entity whose circle overlaps no obstacle of the list, `ResolveCollisions`
returns false and leaves the entity with its position clamped componentwise,
`x' = min (max x 0) SCREEN_WIDTH` and `y' = min (max y 0) SCREEN_HEIGHT`, every other
field untouched; a position already inside the rectangle is unchanged. -/
theorem C1_no_overlap_clamps (L : Lib F) (entity : Entity F) (obstacles : List (Circle F))
    (h : ∀ o ∈ obstacles, L.CheckCollisionCirclesMtv o entity.Collider = none) :
    (ResolveCollisions L entity obstacles).1 = false ∧
    (ResolveCollisions L entity obstacles).2 =
      { entity with pos := ⟨min (max entity.pos.x 0) L.SCREEN_WIDTH,
                            min (max entity.pos.y 0) L.SCREEN_HEIGHT⟩ } ∧
    (0 ≤ entity.pos.x ∧ entity.pos.x ≤ L.SCREEN_WIDTH ∧
      0 ≤ entity.pos.y ∧ entity.pos.y ≤ L.SCREEN_HEIGHT →
      (ResolveCollisions L entity obstacles).2 = entity) := by
  rw [ResolveCollisions_of_no_overlap L entity obstacles h, clampToScreen_eq]
  refine ⟨rfl, rfl, ?_⟩
  rintro ⟨hx0, hxw, hy0, hyh⟩
  simp only [max_eq_left hx0, max_eq_left hy0, min_eq_left hxw, min_eq_left hyh]

/-- C1 at the specification's example: in the 1200 x 800 arena an entity at (-50, 700)
next to a distant obstacle ends at (0, 700), and no collision is reported. -/
theorem C1_no_overlap_clamps_witness :
    (∀ o ∈ [(⟨⟨250, 300⟩, 100⟩ : Circle ℚ)],
      ratLib.CheckCollisionCirclesMtv o
        (Entity.Collider (entityAt (-50) 700 50 100)) = none) ∧
    (ResolveCollisions ratLib (entityAt (-50) 700 50 100)
      [⟨⟨250, 300⟩, 100⟩]).1 = false ∧
    (ResolveCollisions ratLib (entityAt (-50) 700 50 100)
      [⟨⟨250, 300⟩, 100⟩]).2.pos = ⟨0, 700⟩ := by
  have hno : ∀ o ∈ [(⟨⟨250, 300⟩, 100⟩ : Circle ℚ)],
      ratLib.CheckCollisionCirclesMtv o
        (Entity.Collider (entityAt (-50) 700 50 100)) = none := by
    intro o ho
    rw [List.mem_singleton.mp ho,
      ratLib_mtv _ _ 500 (by norm_num)
        (by norm_num [LengthSqr, Vector2.sub_def, Entity.Collider, entityAt])]
    norm_num [Entity.Collider, entityAt]
  have key := C1_no_overlap_clamps ratLib _ _ hno
  refine ⟨hno, key.1, ?_⟩
  rw [key.2.1]
  norm_num [ratLib, specLib, entityAt]

/-- C5: `ResolveCollisions` returns true exactly when some obstacle of the list
overlaps the entity's circle, and then the entity is its old self moved by the mtv of
the first overlapping obstacle in list order alone, whatever the obstacles after it
would report. -/
theorem C5_first_match_wins (L : Lib F) (entity : Entity F) (obstacles : List (Circle F)) :
    ((ResolveCollisions L entity obstacles).1 = true ↔
      ∃ o ∈ obstacles, (L.CheckCollisionCirclesMtv o entity.Collider).isSome = true) ∧
    (∀ (pre post : List (Circle F)) (o : Circle F) (mtv : Vector2 F),
      obstacles = pre ++ o :: post →
      (∀ q ∈ pre, L.CheckCollisionCirclesMtv q entity.Collider = none) →
      L.CheckCollisionCirclesMtv o entity.Collider = some mtv →
      (ResolveCollisions L entity obstacles).2 = { entity with pos := entity.pos + mtv }) := by
  constructor
  · induction obstacles with
    | nil => simp [ResolveCollisions]
    | cons o rest ih =>
      cases h : L.CheckCollisionCirclesMtv o entity.Collider with
      | none => simp [ResolveCollisions, h, ih]
      | some mtv => simp [ResolveCollisions, h]
  · intro pre post o mtv hsplit hpre ho
    rw [hsplit, ResolveCollisions_of_first_overlap L entity pre post o mtv hpre ho]

/-- C5 on a concrete list: of two obstacles that both overlap the entity, only the
first one displaces it. -/
theorem C5_first_match_wins_witness :
    (ResolveCollisions ratLib (entityAt 300 400 50 100)
      [⟨⟨0, 0⟩, 10⟩, ⟨⟨300, 460⟩, 50⟩, ⟨⟨360, 400⟩, 50⟩]).1 = true ∧
    (ResolveCollisions ratLib (entityAt 300 400 50 100)
      [⟨⟨0, 0⟩, 10⟩, ⟨⟨300, 460⟩, 50⟩, ⟨⟨360, 400⟩, 50⟩]).2.pos = ⟨300, 440⟩ := by
  have h0 : ratLib.CheckCollisionCirclesMtv ⟨⟨0, 0⟩, 10⟩
      (Entity.Collider (entityAt 300 400 50 100)) = none := by
    rw [ratLib_mtv _ _ 500 (by norm_num)
      (by norm_num [LengthSqr, Vector2.sub_def, Entity.Collider, entityAt])]
    norm_num [Entity.Collider, entityAt]
  have h1 : ratLib.CheckCollisionCirclesMtv ⟨⟨300, 460⟩, 50⟩
      (Entity.Collider (entityAt 300 400 50 100)) = some ⟨0, 40⟩ := by
    rw [ratLib_mtv _ _ 60 (by norm_num)
      (by norm_num [LengthSqr, Vector2.sub_def, Entity.Collider, entityAt])]
    norm_num [Entity.Collider, entityAt, Vector2.sub_def, Vector2.div_def, Vector2.mul_def]
  have key := (C5_first_match_wins ratLib (entityAt 300 400 50 100)
    [⟨⟨0, 0⟩, 10⟩, ⟨⟨300, 460⟩, 50⟩, ⟨⟨360, 400⟩, 50⟩])
  constructor
  · exact key.1.mpr ⟨⟨⟨300, 460⟩, 50⟩, by simp, by rw [h1]; rfl⟩
  · rw [key.2 [⟨⟨0, 0⟩, 10⟩] [⟨⟨360, 400⟩, 50⟩] ⟨⟨300, 460⟩, 50⟩ ⟨0, 40⟩ rfl
      (by intro q hq; rw [List.mem_singleton.mp hq]; exact h0) h1]
    norm_num [Vector2.add_def, entityAt]

/-- C6, evaluated: in the 1200 x 800 arena an entity at (-50, 700) that overlaps an
obstacle is reported as colliding and moved by the mtv to (-50, 710); the clamp is not
applied and the entity stays left of the arena. -/
theorem C6_overlap_skips_clamp :
    ResolveCollisions ratLib (entityAt (-50) 700 10 100) [⟨⟨-50, 710⟩, 10⟩] =
      (true, (entityAt (-50) 710 10 100)) ∧
    ¬ (0 ≤ (ResolveCollisions ratLib (entityAt (-50) 700 10 100)
      [⟨⟨-50, 710⟩, 10⟩]).2.pos.x) := by
  have h1 : ratLib.CheckCollisionCirclesMtv ⟨⟨-50, 710⟩, 10⟩
      (Entity.Collider (entityAt (-50) 700 10 100)) = some ⟨0, 10⟩ := by
    rw [ratLib_mtv _ _ 10 (by norm_num)
      (by norm_num [LengthSqr, Vector2.sub_def, Entity.Collider, entityAt])]
    norm_num [Entity.Collider, entityAt, Vector2.sub_def, Vector2.div_def, Vector2.mul_def]
  have key : ResolveCollisions ratLib (entityAt (-50) 700 10 100)
      [⟨⟨-50, 710⟩, 10⟩] = (true, (entityAt (-50) 710 10 100)) := by
    have h := ResolveCollisions_of_first_overlap ratLib _ [] [] _ _ (by simp) h1
    rw [List.nil_append] at h
    rw [h]
    norm_num [Vector2.add_def, entityAt]
  rw [key]
  exact ⟨rfl, by norm_num [entityAt]⟩

/-- With the kernel of section 4.1 called as the code calls it (obstacle first, the
entity's collider second) the mtv points from the entity towards the obstacle: an
entity at distance `d` from an overlapping obstacle, `0 < d < R` with `R` the sum of
the radii, ends at distance `|2 d - R|` from it, which is never `R`. -/
theorem ResolveCollisions_specKernel_distance (L : Lib F) (entity : Entity F)
    (o : Circle F) (rest : List (Circle F)) (d : F)
    (hk : L.CheckCollisionCirclesMtv o entity.Collider =
      if (CircleVsCircle L o entity.Collider).1
      then some (CircleVsCircle L o entity.Collider).2 else none)
    (hd : Length L (o.position - entity.pos) = d)
    (hsq : LengthSqr (o.position - entity.pos) = d * d)
    (hpos : 0 < d) (hlt : d < o.radius + entity.radius) :
    (ResolveCollisions L entity (o :: rest)).1 = true ∧
    LengthSqr (o.position - (ResolveCollisions L entity (o :: rest)).2.pos) =
      (2 * d - (o.radius + entity.radius)) * (2 * d - (o.radius + entity.radius)) ∧
    LengthSqr (o.position - (ResolveCollisions L entity (o :: rest)).2.pos) ≠
      (o.radius + entity.radius) * (o.radius + entity.radius) := by
  have hmtv : L.CheckCollisionCirclesMtv o entity.Collider =
      some ((o.position - entity.pos) / d * (o.radius + entity.radius - d)) := by
    rw [hk]
    simp [CircleVsCircle, Entity.Collider, hd, hlt, hpos.ne']
  have hres := ResolveCollisions_of_first_overlap L entity [] rest o _ (by simp) hmtv
  rw [List.nil_append] at hres
  rw [hres]
  have hdist : LengthSqr (o.position -
      (entity.pos + (o.position - entity.pos) / d * (o.radius + entity.radius - d))) =
      (2 * d - (o.radius + entity.radius)) * (2 * d - (o.radius + entity.radius)) := by
    have hd0 : d ≠ 0 := hpos.ne'
    simp only [LengthSqr, Vector2.sub_def, Vector2.add_def, Vector2.div_def,
      Vector2.mul_def] at hsq ⊢
    field_simp
    linear_combination
      (2 * d - (o.radius + entity.radius)) * (2 * d - (o.radius + entity.radius)) * hsq
  refine ⟨rfl, hdist, ?_⟩
  show LengthSqr (o.position -
      (entity.pos + (o.position - entity.pos) / d * (o.radius + entity.radius - d))) ≠ _
  rw [hdist]
  intro hEq
  have hfac : (2 * d - (o.radius + entity.radius)) * (2 * d - (o.radius + entity.radius)) -
      (o.radius + entity.radius) * (o.radius + entity.radius) =
      4 * d * (d - (o.radius + entity.radius)) := by ring
  have hneg : 4 * d * (d - (o.radius + entity.radius)) < 0 :=
    mul_neg_of_pos_of_neg (by linarith) (by linarith)
  linarith

/-- The distance formula at an entity of radius 50, 60 away from an obstacle of radius
50: afterwards the squared distance is `(2 * 60 - 100)^2 = 400`. -/
theorem ResolveCollisions_specKernel_distance_example :
    LengthSqr ((⟨100, 100⟩ : Vector2 ℚ) -
      (ResolveCollisions ratLib (entityAt 160 100 50 100) [⟨⟨100, 100⟩, 50⟩]).2.pos) =
      (2 * 60 - (50 + 50)) * (2 * 60 - (50 + 50)) := by
  have hsq : LengthSqr ((⟨100, 100⟩ : Vector2 ℚ) - (entityAt 160 100 50 100).pos) = 60 * 60 := by
    norm_num [LengthSqr, Vector2.sub_def, entityAt]
  have hd : Length ratLib ((⟨100, 100⟩ : Vector2 ℚ) - (entityAt 160 100 50 100).pos) = 60 := by
    rw [Length, hsq, ratLib_sqrtf_sq]
    norm_num
  exact (ResolveCollisions_specKernel_distance ratLib (entityAt 160 100 50 100)
    ⟨⟨100, 100⟩, 50⟩ [] 60 rfl hd hsq (by norm_num) (by norm_num [entityAt])).2.1

end ResolveCollisionsClaims

/-! ## Claims about the win/loss check -/

section ScreenClaims

variable {F : Type} [LinearOrderedField F]

/-- C3: the win/loss check sets the screen to LOSE whenever the player's health is at
most 0 (also when both enemies are at most 0 as well), to WIN whenever the player's
health is positive and both enemies' health are at most 0, and otherwise leaves the
screen as it was, in particular when only one enemy is at most 0; nothing but the
screen changes. -/
theorem C3_win_loss (g : Game F) :
    (g.player.health ≤ 0 → (evaluateScreen g).screen = Screen.LOSE) ∧
    (0 < g.player.health → g.cce.health ≤ 0 → g.rce.health ≤ 0 →
      (evaluateScreen g).screen = Screen.WIN) ∧
    (0 < g.player.health → ¬ (g.cce.health ≤ 0 ∧ g.rce.health ≤ 0) →
      (evaluateScreen g).screen = g.screen) ∧
    (g.player.health ≤ 0 → g.cce.health ≤ 0 → g.rce.health ≤ 0 →
      (evaluateScreen g).screen = Screen.LOSE) ∧
    (0 < g.player.health → g.cce.health ≤ 0 → 0 < g.rce.health →
      (evaluateScreen g).screen = g.screen) ∧
    (0 < g.player.health → 0 < g.cce.health → g.rce.health ≤ 0 →
      (evaluateScreen g).screen = g.screen) ∧
    evaluateScreen g = { g with screen := (evaluateScreen g).screen } := by
  unfold evaluateScreen
  refine ⟨?_, ?_, ?_, ?_, ?_, ?_, ?_⟩
  · intro h; simp [h]
  · intro h hc hr; simp [not_le.mpr h, hc, hr]
  · intro h hn; simp only [not_le.mpr h, if_false, hn]
  · intro h _ _; simp [h]
  · intro h _ hr; simp [not_le.mpr h, not_le.mpr hr]
  · intro h hc _; simp [not_le.mpr h, not_le.mpr hc]
  · split_ifs <;> rfl

/-- C3 on the scenario of `main`: player at 0 loses, also with both enemies at 0; both
enemies at 0 with the player alive wins; one enemy at 0 leaves the GAME screen. -/
theorem C3_win_loss_witness :
    (evaluateScreen (scenario 0 100 100 Screen.GAME)).screen = Screen.LOSE ∧
    (evaluateScreen (scenario 100 0 0 Screen.GAME)).screen = Screen.WIN ∧
    (evaluateScreen (scenario 0 0 0 Screen.GAME)).screen = Screen.LOSE ∧
    (evaluateScreen (scenario 100 0 100 Screen.GAME)).screen = Screen.GAME ∧
    (evaluateScreen (scenario 100 100 0 Screen.GAME)).screen = Screen.GAME :=
  ⟨(C3_win_loss (scenario 0 100 100 Screen.GAME)).1 (by norm_num [scenario, entityAt]),
   (C3_win_loss (scenario 100 0 0 Screen.GAME)).2.1 (by norm_num [scenario, entityAt])
     (by norm_num [scenario, entityAt]) (by norm_num [scenario, entityAt]),
   (C3_win_loss (scenario 0 0 0 Screen.GAME)).2.2.2.1 (by norm_num [scenario, entityAt])
     (by norm_num [scenario, entityAt]) (by norm_num [scenario, entityAt]),
   (C3_win_loss (scenario 100 0 100 Screen.GAME)).2.2.2.2.1 (by norm_num [scenario, entityAt])
     (by norm_num [scenario, entityAt]) (by norm_num [scenario, entityAt]),
   (C3_win_loss (scenario 100 100 0 Screen.GAME)).2.2.2.2.2.1 (by norm_num [scenario, entityAt])
     (by norm_num [scenario, entityAt]) (by norm_num [scenario, entityAt])⟩

end ScreenClaims

/-! ## Claims about projectile culling -/

section CullClaims

variable {F : Type} [LinearOrderedField F]

/-- The predicate never moves or resizes the player: its collider is the same after
every call. -/
theorem cullPredicate_player_collider (L : Lib F) (g : Game F) (projectile : Projectile F) :
    (cullPredicate L g projectile).2.player.Collider = g.player.Collider := by
  unfold cullPredicate
  simp only [PlaySound]
  split_ifs <;> rfl

/-- Every projectile that survives the cull step is one the predicate saw not
overlapping the player. -/
theorem cullProjectiles_kept_clear_of_player (L : Lib F) (g : Game F)
    (projectiles : List (Projectile F)) :
    ∀ q ∈ (cullProjectiles L g projectiles).1,
      L.CheckCollisionCircles g.player.Collider q.Collider = false := by
  induction projectiles generalizing g with
  | nil => simp [cullProjectiles]
  | cons p rest ih =>
    intro q hq
    have ih1 := ih (cullPredicate L g p).2
    rw [cullPredicate_player_collider] at ih1
    simp only [cullProjectiles] at hq
    by_cases hrem : (cullPredicate L g p).1 = true
    · rw [if_pos hrem] at hq
      exact ih1 q hq
    · rw [if_neg hrem] at hq
      rcases List.mem_cons.mp hq with rfl | hq
      · by_contra hc
        apply hrem
        have hc1 : L.CheckCollisionCircles g.player.Collider q.Collider = true := by
          simpa using hc
        unfold cullPredicate
        rw [if_pos hc1]
        split_ifs <;> rfl
      · exact ih1 q hq

/-- The player branch of the predicate (lines 257-268): the flag, the player's health
and the enemies after a call on a projectile that overlaps the player. -/
theorem cullPredicate_of_player_overlap (L : Lib F) (g : Game F) (projectile : Projectile F)
    (h : L.CheckCollisionCircles g.player.Collider projectile.Collider = true) :
    (cullPredicate L g projectile).1 = true ∧
    (projectile.type = ProjectileType.ENEMY →
      (cullPredicate L g projectile).2.player.health = g.player.health - projectile.damage) ∧
    (projectile.type = ProjectileType.PLAYER →
      (cullPredicate L g projectile).2.player.health = g.player.health) ∧
    (cullPredicate L g projectile).2.cce = g.cce ∧
    (cullPredicate L g projectile).2.rce = g.rce := by
  refine ⟨?_, ?_, ?_, ?_, ?_⟩
  · unfold cullPredicate
    rw [if_pos h]
    split_ifs <;> rfl
  · intro ht
    unfold cullPredicate
    rw [if_pos h, if_pos ht]
    simp only [PlaySound]
    split_ifs <;> rfl
  · intro ht
    have hne : ¬ projectile.type = ProjectileType.ENEMY := by rw [ht]; decide
    unfold cullPredicate
    rw [if_pos h, if_neg hne]
  · unfold cullPredicate
    rw [if_pos h]
    simp only [PlaySound]
    split_ifs <;> rfl
  · unfold cullPredicate
    rw [if_pos h]
    simp only [PlaySound]
    split_ifs <;> rfl

/-- The cull step never moves or resizes the player either. -/
theorem cullProjectiles_player_collider (L : Lib F) (g : Game F)
    (projectiles : List (Projectile F)) :
    (cullProjectiles L g projectiles).2.player.Collider = g.player.Collider := by
  induction projectiles generalizing g with
  | nil => rfl
  | cons p rest ih =>
    simp only [cullProjectiles]
    rw [ih, cullPredicate_player_collider]

/-- The cull step on a list with a removed projectile in the middle: the projectiles
before it are processed first, the predicate is applied to it in the state they leave,
it is dropped, and the step continues with the rest. -/
theorem cullProjectiles_split (L : Lib F) (g : Game F) (pre post : List (Projectile F))
    (projectile : Projectile F)
    (h : (cullPredicate L (cullProjectiles L g pre).2 projectile).1 = true) :
    cullProjectiles L g (pre ++ projectile :: post) =
      ((cullProjectiles L g pre).1 ++
          (cullProjectiles L (cullPredicate L (cullProjectiles L g pre).2 projectile).2 post).1,
        (cullProjectiles L (cullPredicate L (cullProjectiles L g pre).2 projectile).2 post).2) := by
  induction pre generalizing g with
  | nil =>
    simp only [cullProjectiles, List.nil_append] at h ⊢
    rw [if_pos h]
  | cons p rest ih =>
    have h' : (cullPredicate L (cullProjectiles L (cullPredicate L g p).2 rest).2
        projectile).1 = true := h
    have e1 : cullProjectiles L g (p :: rest ++ projectile :: post) =
        (if (cullPredicate L g p).1 then
            (cullProjectiles L (cullPredicate L g p).2 (rest ++ projectile :: post)).1
          else p :: (cullProjectiles L (cullPredicate L g p).2 (rest ++ projectile :: post)).1,
          (cullProjectiles L (cullPredicate L g p).2 (rest ++ projectile :: post)).2) := rfl
    have e2 : cullProjectiles L g (p :: rest) =
        (if (cullPredicate L g p).1 then (cullProjectiles L (cullPredicate L g p).2 rest).1
          else p :: (cullProjectiles L (cullPredicate L g p).2 rest).1,
          (cullProjectiles L (cullPredicate L g p).2 rest).2) := rfl
    rw [e1, e2, ih _ h']
    split_ifs <;> rfl

/-- C4: in the cull step a projectile whose circle overlaps the player's circle is
removed and registers the player hit only.  When the predicate reaches it, after the
projectiles before it, it returns true; the player's health drops by the projectile's
damage, once, if the projectile is enemy-originated and is unchanged otherwise; both
enemies are left exactly as they were; whatever the other collision tests (enemies,
obstacles, arena rectangle) say about it.  The projectile is dropped from the list and
the step goes on with the rest. -/
theorem C4_player_hit_first (L : Lib F) (g : Game F) (projectile : Projectile F)
    (pre post : List (Projectile F))
    (h : L.CheckCollisionCircles g.player.Collider projectile.Collider = true) :
    (cullPredicate L (cullProjectiles L g pre).2 projectile).1 = true ∧
    (projectile.type = ProjectileType.ENEMY →
      (cullPredicate L (cullProjectiles L g pre).2 projectile).2.player.health =
        (cullProjectiles L g pre).2.player.health - projectile.damage) ∧
    (projectile.type = ProjectileType.PLAYER →
      (cullPredicate L (cullProjectiles L g pre).2 projectile).2.player.health =
        (cullProjectiles L g pre).2.player.health) ∧
    (cullPredicate L (cullProjectiles L g pre).2 projectile).2.cce =
      (cullProjectiles L g pre).2.cce ∧
    (cullPredicate L (cullProjectiles L g pre).2 projectile).2.rce =
      (cullProjectiles L g pre).2.rce ∧
    cullProjectiles L g (pre ++ projectile :: post) =
      ((cullProjectiles L g pre).1 ++
          (cullProjectiles L (cullPredicate L (cullProjectiles L g pre).2 projectile).2 post).1,
        (cullProjectiles L (cullPredicate L (cullProjectiles L g pre).2 projectile).2 post).2) ∧
    projectile ∉ (cullProjectiles L g (pre ++ projectile :: post)).1 := by
  have h' : L.CheckCollisionCircles (cullProjectiles L g pre).2.player.Collider
      projectile.Collider = true := by
    rw [cullProjectiles_player_collider]
    exact h
  obtain ⟨h1, h2, h3, h4, h5⟩ :=
    cullPredicate_of_player_overlap L (cullProjectiles L g pre).2 projectile h'
  refine ⟨h1, h2, h3, h4, h5, cullProjectiles_split L g pre post projectile h1, ?_⟩
  intro hmem
  have := cullProjectiles_kept_clear_of_player L g _ projectile hmem
  rw [h] at this
  exact Bool.noConfusion this

/-- C4 on a projectile that overlaps the player and lies outside the arena: with the
player at (1190, 640) an enemy projectile at (1210, 640), met after a player projectile
that also overlaps the player, is removed as a player hit; the player goes from 100 to
90, the enemies keep their health and no projectile is left. -/
theorem C4_player_hit_first_witness :
    ratLib.CheckCollisionCircles scenarioAtEdge.player.Collider
      (projectileAt 1210 640 ProjectileType.ENEMY 10).Collider = true ∧
    ratLib.CheckCollisionPointRec (projectileAt 1210 640 ProjectileType.ENEMY 10).pos
      (SCREEN_REC ratLib) = false ∧
    (cullProjectiles ratLib scenarioAtEdge
      ([projectileAt 1190 600 ProjectileType.PLAYER 5] ++
        [projectileAt 1210 640 ProjectileType.ENEMY 10])).1 = [] ∧
    (cullProjectiles ratLib scenarioAtEdge
      ([projectileAt 1190 600 ProjectileType.PLAYER 5] ++
        [projectileAt 1210 640 ProjectileType.ENEMY 10])).2.player.health = 90 ∧
    (cullProjectiles ratLib scenarioAtEdge
      ([projectileAt 1190 600 ProjectileType.PLAYER 5] ++
        [projectileAt 1210 640 ProjectileType.ENEMY 10])).2.cce.health = 100 ∧
    (cullProjectiles ratLib scenarioAtEdge
      ([projectileAt 1190 600 ProjectileType.PLAYER 5] ++
        [projectileAt 1210 640 ProjectileType.ENEMY 10])).2.rce.health = 100 := by
  have hov2 : ratLib.CheckCollisionCircles scenarioAtEdge.player.Collider
      (projectileAt 1210 640 ProjectileType.ENEMY 10).Collider = true := by
    rw [ratLib_overlap _ _ 20 (by norm_num)
      (by norm_num [LengthSqr, Vector2.sub_def, Entity.Collider, entityAt, projectileAt,
        scenarioAtEdge])]
    norm_num [Entity.Collider, entityAt, projectileAt, scenarioAtEdge]
  have hov1 : ratLib.CheckCollisionCircles scenarioAtEdge.player.Collider
      (projectileAt 1190 600 ProjectileType.PLAYER 5).Collider = true := by
    rw [ratLib_overlap _ _ 40 (by norm_num)
      (by norm_num [LengthSqr, Vector2.sub_def, Entity.Collider, entityAt, projectileAt,
        scenarioAtEdge])]
    norm_num [Entity.Collider, entityAt, projectileAt, scenarioAtEdge]
  have hp1 : cullPredicate ratLib scenarioAtEdge
      (projectileAt 1190 600 ProjectileType.PLAYER 5) = (true, scenarioAtEdge) := by
    unfold cullPredicate
    rw [if_pos hov1]
    rfl
  have hpre : cullProjectiles ratLib scenarioAtEdge
      [projectileAt 1190 600 ProjectileType.PLAYER 5] = ([], scenarioAtEdge) := by
    simp [cullProjectiles, hp1]
  have key := C4_player_hit_first ratLib scenarioAtEdge
    (projectileAt 1210 640 ProjectileType.ENEMY 10)
    [projectileAt 1190 600 ProjectileType.PLAYER 5] [] hov2
  rw [hpre] at key
  obtain ⟨_, khealth, _, kcce, krce, ksplit, _⟩ := key
  rw [ksplit]
  refine ⟨hov2, ?_, rfl, ?_, ?_, ?_⟩
  · norm_num [ratLib, specLib, PointInRect, SCREEN_REC, projectileAt, entityAt]
  · exact (khealth rfl).trans (by norm_num [scenarioAtEdge, entityAt, projectileAt])
  · exact (congrArg (fun e : Enemy ℚ => e.health) kcce).trans rfl
  · exact (congrArg (fun e : Enemy ℚ => e.health) krce).trans rfl

/-- The sound requests of the player branch (lines 257-268) as the code issues them:
an enemy projectile overlapping the player requests the hit sound, and the death sound
when the health after the hit is positive and one more such hit would end it; a player
projectile overlapping the player requests nothing. -/
theorem cullPredicate_player_sounds (L : Lib F) (g : Game F) (projectile : Projectile F)
    (h : L.CheckCollisionCircles g.player.Collider projectile.Collider = true) :
    (projectile.type = ProjectileType.ENEMY →
      (cullPredicate L g projectile).2.sounds =
        g.sounds ++ [Sound.playerHitSound] ++
          (if 0 < g.player.health - projectile.damage ∧
              g.player.health - projectile.damage - projectile.damage ≤ 0
           then [Sound.playerDeathSound] else [])) ∧
    (projectile.type = ProjectileType.PLAYER →
      (cullPredicate L g projectile).2.sounds = g.sounds) := by
  constructor
  · intro ht
    unfold cullPredicate
    rw [if_pos h, if_pos ht]
    simp only [PlaySound, gt_iff_lt]
    split_ifs <;> simp
  · intro ht
    have hne : ¬ projectile.type = ProjectileType.ENEMY := by rw [ht]; decide
    unfold cullPredicate
    rw [if_pos h, if_neg hne]

end CullClaims

/-- C10, evaluated: an enemy projectile of damage 10 that hits a player of health 10
takes the health to 0 and requests the hit sound only, no death sound, although this
hit ends the player; and one of damage 20 that hits a player of health 30 leaves the
health at 10 and requests the death sound, although the player survives. -/
theorem C10_death_sound_after_decrement :
    (cullPredicate ratLib (scenario 10 100 100 Screen.GAME)
      (projectileAt 960 600 ProjectileType.ENEMY 10)).1 = true ∧
    (cullPredicate ratLib (scenario 10 100 100 Screen.GAME)
      (projectileAt 960 600 ProjectileType.ENEMY 10)).2.player.health = 0 ∧
    (cullPredicate ratLib (scenario 10 100 100 Screen.GAME)
      (projectileAt 960 600 ProjectileType.ENEMY 10)).2.sounds = [Sound.playerHitSound] ∧
    (cullPredicate ratLib (scenario 30 100 100 Screen.GAME)
      (projectileAt 960 600 ProjectileType.ENEMY 20)).2.player.health = 10 ∧
    (cullPredicate ratLib (scenario 30 100 100 Screen.GAME)
      (projectileAt 960 600 ProjectileType.ENEMY 20)).2.sounds =
        [Sound.playerHitSound, Sound.playerDeathSound] := by
  have hov : ∀ playerHealth damage : ℚ, ratLib.CheckCollisionCircles
      (scenario playerHealth 100 100 Screen.GAME).player.Collider
      (projectileAt 960 600 ProjectileType.ENEMY damage).Collider = true := by
    intro playerHealth damage
    rw [ratLib_overlap _ _ 40 (by norm_num)
      (by norm_num [LengthSqr, Vector2.sub_def, Entity.Collider, entityAt, projectileAt,
        scenario])]
    norm_num [Entity.Collider, entityAt, projectileAt, scenario]
  have hsnd := fun playerHealth damage =>
    (cullPredicate_player_sounds ratLib (scenario playerHealth 100 100 Screen.GAME)
      (projectileAt 960 600 ProjectileType.ENEMY damage) (hov playerHealth damage)).1 rfl
  have hhit := fun playerHealth damage =>
    cullPredicate_of_player_overlap ratLib (scenario playerHealth 100 100 Screen.GAME)
      (projectileAt 960 600 ProjectileType.ENEMY damage) (hov playerHealth damage)
  refine ⟨(hhit 10 10).1, ?_, ?_, ?_, ?_⟩
  · rw [(hhit 10 10).2.1 rfl]
    norm_num [scenario, entityAt, projectileAt]
  · rw [hsnd 10 10]
    norm_num [scenario, entityAt, projectileAt]
  · rw [(hhit 30 20).2.1 rfl]
    norm_num [scenario, entityAt, projectileAt]
  · rw [hsnd 30 20]
    norm_num [scenario, entityAt, projectileAt]

/-! ## Lemmas about `Avoid` -/

section AvoidLemmas

variable {F : Type} [LinearOrderedField F]

/-- The lambda `obstacleDetected` reports a hit exactly when the probe segment at the
given offset intersects some obstacle of the list. -/
theorem obstacleDetected_eq_true_iff (L : Lib F) (rb : Rigidbody F) (probeLength : F)
    (obstacles : List (Circle F)) (angle : F) :
    obstacleDetected L rb probeLength obstacles angle = true ↔
      ∃ obstacle ∈ obstacles, L.CheckCollisionLineCircle rb.pos
        (rb.pos + Rotate L (Normalize L rb.vel) (angle * L.DEG2RAD) * probeLength)
        obstacle = true := by
  simp [obstacleDetected, List.any_eq_true]

theorem obstacleDetected_append (L : Lib F) (rb : Rigidbody F) (probeLength : F)
    (xs ys : List (Circle F)) (angle : F) :
    obstacleDetected L rb probeLength (xs ++ ys) angle =
      (obstacleDetected L rb probeLength xs angle ||
        obstacleDetected L rb probeLength ys angle) := by
  simp [obstacleDetected, List.any_append]

theorem Avoid_of_first (L : Lib F) (rb : Rigidbody F) (probeLength dt : F)
    (obstacles : List (Circle F))
    (h : obstacleDetected L rb probeLength obstacles (-15) = true) :
    Avoid L rb probeLength dt obstacles = avoid L rb dt (-15) := by
  simp [Avoid, h]

theorem Avoid_of_second (L : Lib F) (rb : Rigidbody F) (probeLength dt : F)
    (obstacles : List (Circle F))
    (h1 : obstacleDetected L rb probeLength obstacles (-15) = false)
    (h2 : obstacleDetected L rb probeLength obstacles (-30) = true) :
    Avoid L rb probeLength dt obstacles = avoid L rb dt (-30) := by
  simp [Avoid, h1, h2]

theorem Avoid_of_third (L : Lib F) (rb : Rigidbody F) (probeLength dt : F)
    (obstacles : List (Circle F))
    (h1 : obstacleDetected L rb probeLength obstacles (-15) = false)
    (h2 : obstacleDetected L rb probeLength obstacles (-30) = false)
    (h3 : obstacleDetected L rb probeLength obstacles 15 = true) :
    Avoid L rb probeLength dt obstacles = avoid L rb dt 15 := by
  simp [Avoid, h1, h2, h3]

theorem Avoid_of_fourth (L : Lib F) (rb : Rigidbody F) (probeLength dt : F)
    (obstacles : List (Circle F))
    (h1 : obstacleDetected L rb probeLength obstacles (-15) = false)
    (h2 : obstacleDetected L rb probeLength obstacles (-30) = false)
    (h3 : obstacleDetected L rb probeLength obstacles 15 = false)
    (h4 : obstacleDetected L rb probeLength obstacles 30 = true) :
    Avoid L rb probeLength dt obstacles = avoid L rb dt 30 := by
  simp [Avoid, h1, h2, h3, h4]

theorem Avoid_of_none (L : Lib F) (rb : Rigidbody F) (probeLength dt : F)
    (obstacles : List (Circle F))
    (h1 : obstacleDetected L rb probeLength obstacles (-15) = false)
    (h2 : obstacleDetected L rb probeLength obstacles (-30) = false)
    (h3 : obstacleDetected L rb probeLength obstacles 15 = false)
    (h4 : obstacleDetected L rb probeLength obstacles 30 = false) :
    Avoid L rb probeLength dt obstacles = 0 := by
  simp [Avoid, h1, h2, h3, h4]

theorem Vector2.add_zero_right (a : Vector2 F) : a + 0 = a := by
  simp [Vector2.eq_iff, Vector2.add_def, Vector2.zero_def]

theorem Vector2.add_eq_right_iff (a b : Vector2 F) : a + b = b ↔ a = 0 := by
  simp [Vector2.eq_iff, Vector2.add_def, Vector2.zero_def]

/-- A rotation keeps the squared length when the cosine and sine used lie on the unit
circle. -/
theorem LengthSqr_Rotate (L : Lib F) (v : Vector2 F) (a : F)
    (hcs : L.cosf a * L.cosf a + L.sinf a * L.sinf a = 1) :
    LengthSqr (Rotate L v a) = LengthSqr v := by
  simp only [LengthSqr, Rotate]
  linear_combination (v.x * v.x + v.y * v.y) * hcs

/-- For a non-zero velocity whose length the square root gets right, the target
velocity of the lambda `avoid` is the velocity itself, rotated. -/
theorem Rotate_Normalize_mul_Length (L : Lib F) (v : Vector2 F) (a : F)
    (hv : v ≠ 0) (h0 : 0 ≤ L.sqrtf (LengthSqr v))
    (hsq : L.sqrtf (LengthSqr v) * L.sqrtf (LengthSqr v) = LengthSqr v) :
    Rotate L (Normalize L v) a * Length L v = Rotate L v a := by
  have hpos : 0 < LengthSqr v := by
    have hne : v.x ≠ 0 ∨ v.y ≠ 0 := by
      by_contra hcon
      push_neg at hcon
      exact hv ((Vector2.eq_iff v 0).mpr ⟨hcon.1, hcon.2⟩)
    unfold LengthSqr
    rcases hne with hx | hy
    · have := mul_self_pos.mpr hx
      nlinarith [mul_self_nonneg v.y]
    · have := mul_self_pos.mpr hy
      nlinarith [mul_self_nonneg v.x]
  have hlen : 0 < Length L v := by
    unfold Length
    rcases h0.lt_or_eq with h | h
    · exact h
    · rw [← h] at hsq
      simp at hsq
      linarith
  have hne : Length L v ≠ 0 := hlen.ne'
  rw [Normalize, if_pos hlen]
  simp only [Rotate, Vector2.div_def, Vector2.mul_def, Vector2.eq_iff]
  constructor <;> field_simp

/-- Accelerating for `dt` with `Acceleration vi vf dt` reaches `vf`. -/
theorem add_Acceleration_mul (vi vf : Vector2 F) (dt : F) (hdt : dt ≠ 0) :
    vi + Acceleration vi vf dt * dt = vf := by
  simp only [Acceleration, Vector2.div_def, Vector2.mul_def, Vector2.add_def, Vector2.sub_def,
    Vector2.eq_iff]
  constructor <;> field_simp

end AvoidLemmas

/-! ## Evaluating the probes of a concrete enemy -/

section AvoidEvaluation

theorem enemyMoving_Length (acc : Vector2 ℚ) :
    Length ratLib (enemyMoving acc).vel = 500 := by
  have h : LengthSqr (enemyMoving acc).vel = 500 * 500 := by
    norm_num [LengthSqr, enemyMoving]
  rw [Length, h, ratLib_sqrtf_sq]
  norm_num

theorem enemyMoving_Normalize (acc : Vector2 ℚ) :
    Normalize ratLib (enemyMoving acc).vel = ⟨3 / 5, 4 / 5⟩ := by
  rw [Normalize, enemyMoving_Length]
  norm_num [enemyMoving, Vector2.div_def]

/-- The obstacle at (178, 162) of radius 5 lies on the -15 degree probe. -/
theorem enemyMoving_probe_first (acc : Vector2 ℚ) :
    obstacleDetected ratLib (enemyMoving acc).toRigidbody 100 [⟨⟨178, 162⟩, 5⟩] (-15) = true := by
  simp only [obstacleDetected, enemyMoving_Normalize, List.any_cons, List.any_nil]
  norm_num [ratLib, specLib, Rotate, LineVsCircle, LengthSqr, Vector2.sub_def, Vector2.add_def,
    Vector2.mul_def, enemyMoving]

/-- The obstacle at (191, 140) of radius 5 is clear of the -15 degree probe. -/
theorem enemyMoving_probe_first_clear (acc : Vector2 ℚ) :
    obstacleDetected ratLib (enemyMoving acc).toRigidbody 100 [⟨⟨191, 140⟩, 5⟩] (-15) = false := by
  simp only [obstacleDetected, enemyMoving_Normalize, List.any_cons, List.any_nil]
  norm_num [ratLib, specLib, Rotate, LineVsCircle, LengthSqr, Vector2.sub_def, Vector2.add_def,
    Vector2.mul_def, enemyMoving]

/-- The obstacle at (191, 140) of radius 5 lies on the -30 degree probe. -/
theorem enemyMoving_probe_second (acc : Vector2 ℚ) :
    obstacleDetected ratLib (enemyMoving acc).toRigidbody 100 [⟨⟨191, 140⟩, 5⟩] (-30) = true := by
  simp only [obstacleDetected, enemyMoving_Normalize, List.any_cons, List.any_nil]
  norm_num [ratLib, specLib, Rotate, LineVsCircle, LengthSqr, Vector2.sub_def, Vector2.add_def,
    Vector2.mul_def, enemyMoving]

/-- The rational cosine and sine of `ratLib` lie on the unit circle. -/
theorem ratLib_cos_sin (a : ℚ) :
    ratLib.cosf a * ratLib.cosf a + ratLib.sinf a * ratLib.sinf a = 1 := by
  have h : (1 + a / 2 * (a / 2)) ≠ 0 := by nlinarith [mul_self_nonneg (a / 2)]
  show (1 - a / 2 * (a / 2)) / (1 + a / 2 * (a / 2)) *
        ((1 - a / 2 * (a / 2)) / (1 + a / 2 * (a / 2))) +
      a / (1 + a / 2 * (a / 2)) * (a / (1 + a / 2 * (a / 2))) = 1
  have key : ∀ d u : ℚ, d ≠ 0 → d = 1 + u * u →
      (1 - u * u) / d * ((1 - u * u) / d) + 2 * u / d * (2 * u / d) = 1 := by
    intro d u hd he
    field_simp
    rw [he]
    ring
  have hk := key (1 + a / 2 * (a / 2)) (a / 2) h rfl
  rw [show 2 * (a / 2) = a by ring] at hk
  exact hk

end AvoidEvaluation

/-! ## Claims about `Avoid` -/

section AvoidClaims

variable {F : Type} [LinearOrderedField F]

/-- C2: `Avoid` tests the probes in the order -15, -30, +15, +30 degrees and returns the
correction of the first obstructed one.  When the -15 degree probe is obstructed the
result is the -15 correction, and it stays the same when further obstacles are added
to the list, whichever probes they obstruct; when -15 is clear and -30 is obstructed the
result is the -30 correction, whatever the +15 and +30 probes report; then +15, then
+30. -/
theorem C2_probe_priority (L : Lib F) (rb : Rigidbody F) (probeLength dt : F)
    (obstacles : List (Circle F)) :
    (obstacleDetected L rb probeLength obstacles (-15) = true →
      Avoid L rb probeLength dt obstacles = avoid L rb dt (-15) ∧
      ∀ more : List (Circle F),
        Avoid L rb probeLength dt (obstacles ++ more) = Avoid L rb probeLength dt obstacles ∧
        Avoid L rb probeLength dt (more ++ obstacles) = Avoid L rb probeLength dt obstacles) ∧
    (obstacleDetected L rb probeLength obstacles (-15) = false →
      obstacleDetected L rb probeLength obstacles (-30) = true →
      Avoid L rb probeLength dt obstacles = avoid L rb dt (-30)) ∧
    (obstacleDetected L rb probeLength obstacles (-15) = false →
      obstacleDetected L rb probeLength obstacles (-30) = false →
      obstacleDetected L rb probeLength obstacles 15 = true →
      Avoid L rb probeLength dt obstacles = avoid L rb dt 15) ∧
    (obstacleDetected L rb probeLength obstacles (-15) = false →
      obstacleDetected L rb probeLength obstacles (-30) = false →
      obstacleDetected L rb probeLength obstacles 15 = false →
      obstacleDetected L rb probeLength obstacles 30 = true →
      Avoid L rb probeLength dt obstacles = avoid L rb dt 30) := by
  refine ⟨?_, Avoid_of_second L rb probeLength dt obstacles,
    Avoid_of_third L rb probeLength dt obstacles,
    Avoid_of_fourth L rb probeLength dt obstacles⟩
  intro h
  refine ⟨Avoid_of_first L rb probeLength dt obstacles h, ?_⟩
  intro more
  rw [Avoid_of_first L rb probeLength dt obstacles h,
    Avoid_of_first L rb probeLength dt (obstacles ++ more)
      (by rw [obstacleDetected_append, h]; rfl),
    Avoid_of_first L rb probeLength dt (more ++ obstacles)
      (by rw [obstacleDetected_append, h, Bool.or_true])]
  exact ⟨rfl, rfl⟩

/-- C2 on the enemy moving along (3, 4): an obstacle on the -15 degree probe yields the
-15 correction, also with a second obstacle on the -30 degree probe; the obstacle on the
-30 degree probe alone, clear of the -15 degree probe, yields the -30 correction. -/
theorem C2_probe_priority_witness :
    obstacleDetected ratLib (enemyMoving 0).toRigidbody 100 [⟨⟨178, 162⟩, 5⟩] (-15) = true ∧
    Avoid ratLib (enemyMoving 0).toRigidbody 100 (1 / 60) [⟨⟨178, 162⟩, 5⟩] =
      avoid ratLib (enemyMoving 0).toRigidbody (1 / 60) (-15) ∧
    obstacleDetected ratLib (enemyMoving 0).toRigidbody 100 [⟨⟨191, 140⟩, 5⟩] (-30) = true ∧
    Avoid ratLib (enemyMoving 0).toRigidbody 100 (1 / 60) ([⟨⟨178, 162⟩, 5⟩] ++ [⟨⟨191, 140⟩, 5⟩]) =
      Avoid ratLib (enemyMoving 0).toRigidbody 100 (1 / 60) [⟨⟨178, 162⟩, 5⟩] ∧
    obstacleDetected ratLib (enemyMoving 0).toRigidbody 100 [⟨⟨191, 140⟩, 5⟩] (-15) = false ∧
    Avoid ratLib (enemyMoving 0).toRigidbody 100 (1 / 60) [⟨⟨191, 140⟩, 5⟩] =
      avoid ratLib (enemyMoving 0).toRigidbody (1 / 60) (-30) :=
  ⟨enemyMoving_probe_first 0,
   ((C2_probe_priority ratLib (enemyMoving 0).toRigidbody 100 (1 / 60) [⟨⟨178, 162⟩, 5⟩]).1
      (enemyMoving_probe_first 0)).1,
   enemyMoving_probe_second 0,
   (((C2_probe_priority ratLib (enemyMoving 0).toRigidbody 100 (1 / 60) [⟨⟨178, 162⟩, 5⟩]).1
      (enemyMoving_probe_first 0)).2 [⟨⟨191, 140⟩, 5⟩]).1,
   enemyMoving_probe_first_clear 0,
   (C2_probe_priority ratLib (enemyMoving 0).toRigidbody 100 (1 / 60) [⟨⟨191, 140⟩, 5⟩]).2.1
      (enemyMoving_probe_first_clear 0) (enemyMoving_probe_second 0)⟩

/-- The lambda `avoid` at a negative offset, when `Sign` is 1 on positive numbers. -/
theorem avoid_of_neg (L : Lib F) (rb : Rigidbody F) (dt angle : F)
    (hpos : ∀ a, 0 < a → L.Sign a = 1) (h : angle < 0) :
    avoid L rb dt angle =
      Acceleration rb.vel
        (Rotate L (Normalize L rb.vel) (rb.angularSpeed * dt) * Length L rb.vel) dt := by
  rw [avoid, hpos (-angle) (neg_pos.mpr h), mul_one]

/-- The lambda `avoid` at a positive offset, when `Sign` is -1 on negative numbers. -/
theorem avoid_of_pos (L : Lib F) (rb : Rigidbody F) (dt angle : F)
    (hneg : ∀ a, a < 0 → L.Sign a = -1) (h : 0 < angle) :
    avoid L rb dt angle =
      Acceleration rb.vel
        (Rotate L (Normalize L rb.vel) (-(rb.angularSpeed * dt)) * Length L rb.vel) dt := by
  rw [avoid, hneg (-angle) (neg_neg_of_pos h), mul_neg, mul_one]

/-- C8: for a body with non-zero velocity `v` and `dt > 0`, with a square root that is
right at `|v|^2`, cosine and sine on the unit circle and `Sign` the sign function, the
acceleration `a` returned by `Avoid` when some probe is obstructed reaches the target
velocity within `dt`: `v + a * dt` is `v` rotated by `angularSpeed * dt` when the
triggering probe has a negative offset and by `-(angularSpeed * dt)` when it has a
positive one, of the same length as `v`; the -15 and -30 corrections are equal, and so
are the +15 and +30 corrections.  With no probe obstructed `Avoid` returns the zero
vector. -/
theorem C8_avoid_reaches_rotated_velocity (L : Lib F) (rb : Rigidbody F)
    (probeLength dt : F) (obstacles : List (Circle F))
    (hv : rb.vel ≠ 0) (hdt : 0 < dt)
    (hsqrt0 : 0 ≤ L.sqrtf (LengthSqr rb.vel))
    (hsqrt : L.sqrtf (LengthSqr rb.vel) * L.sqrtf (LengthSqr rb.vel) = LengthSqr rb.vel)
    (hcs : ∀ a, L.cosf a * L.cosf a + L.sinf a * L.sinf a = 1)
    (hpos : ∀ a, 0 < a → L.Sign a = 1) (hneg : ∀ a, a < 0 → L.Sign a = -1) :
    (obstacleDetected L rb probeLength obstacles (-15) = true ∨
      obstacleDetected L rb probeLength obstacles (-30) = true →
      rb.vel + Avoid L rb probeLength dt obstacles * dt =
        Rotate L rb.vel (rb.angularSpeed * dt)) ∧
    (obstacleDetected L rb probeLength obstacles (-15) = false →
      obstacleDetected L rb probeLength obstacles (-30) = false →
      obstacleDetected L rb probeLength obstacles 15 = true ∨
        obstacleDetected L rb probeLength obstacles 30 = true →
      rb.vel + Avoid L rb probeLength dt obstacles * dt =
        Rotate L rb.vel (-(rb.angularSpeed * dt))) ∧
    (obstacleDetected L rb probeLength obstacles (-15) = true ∨
      obstacleDetected L rb probeLength obstacles (-30) = true ∨
      obstacleDetected L rb probeLength obstacles 15 = true ∨
      obstacleDetected L rb probeLength obstacles 30 = true →
      Length L (rb.vel + Avoid L rb probeLength dt obstacles * dt) = Length L rb.vel ∧
      LengthSqr (rb.vel + Avoid L rb probeLength dt obstacles * dt) = LengthSqr rb.vel) ∧
    avoid L rb dt (-15) = avoid L rb dt (-30) ∧
    avoid L rb dt 15 = avoid L rb dt 30 ∧
    (obstacleDetected L rb probeLength obstacles (-15) = false →
      obstacleDetected L rb probeLength obstacles (-30) = false →
      obstacleDetected L rb probeLength obstacles 15 = false →
      obstacleDetected L rb probeLength obstacles 30 = false →
      Avoid L rb probeLength dt obstacles = 0) := by
  have hdt0 : dt ≠ 0 := hdt.ne'
  have hN : ∀ angle : F, angle < 0 →
      rb.vel + avoid L rb dt angle * dt = Rotate L rb.vel (rb.angularSpeed * dt) := by
    intro angle h
    rw [avoid_of_neg L rb dt angle hpos h, add_Acceleration_mul _ _ _ hdt0,
      Rotate_Normalize_mul_Length L rb.vel _ hv hsqrt0 hsqrt]
  have hP : ∀ angle : F, 0 < angle →
      rb.vel + avoid L rb dt angle * dt = Rotate L rb.vel (-(rb.angularSpeed * dt)) := by
    intro angle h
    rw [avoid_of_pos L rb dt angle hneg h, add_Acceleration_mul _ _ _ hdt0,
      Rotate_Normalize_mul_Length L rb.vel _ hv hsqrt0 hsqrt]
  have hneg1 : obstacleDetected L rb probeLength obstacles (-15) = true ∨
        obstacleDetected L rb probeLength obstacles (-30) = true →
      rb.vel + Avoid L rb probeLength dt obstacles * dt =
        Rotate L rb.vel (rb.angularSpeed * dt) := by
    intro h
    cases h15 : obstacleDetected L rb probeLength obstacles (-15) with
    | true => rw [Avoid_of_first L rb probeLength dt obstacles h15]; exact hN _ (by norm_num)
    | false =>
      have h30 : obstacleDetected L rb probeLength obstacles (-30) = true := by
        rcases h with h | h
        · rw [h15] at h; exact Bool.noConfusion h
        · exact h
      rw [Avoid_of_second L rb probeLength dt obstacles h15 h30]
      exact hN _ (by norm_num)
  have hpos1 : obstacleDetected L rb probeLength obstacles (-15) = false →
      obstacleDetected L rb probeLength obstacles (-30) = false →
      obstacleDetected L rb probeLength obstacles 15 = true ∨
        obstacleDetected L rb probeLength obstacles 30 = true →
      rb.vel + Avoid L rb probeLength dt obstacles * dt =
        Rotate L rb.vel (-(rb.angularSpeed * dt)) := by
    intro h15 h30 h
    cases hp15 : obstacleDetected L rb probeLength obstacles 15 with
    | true =>
      rw [Avoid_of_third L rb probeLength dt obstacles h15 h30 hp15]
      exact hP _ (by norm_num)
    | false =>
      have hp30 : obstacleDetected L rb probeLength obstacles 30 = true := by
        rcases h with h | h
        · rw [hp15] at h; exact Bool.noConfusion h
        · exact h
      rw [Avoid_of_fourth L rb probeLength dt obstacles h15 h30 hp15 hp30]
      exact hP _ (by norm_num)
  have hsq : ∀ a : F, LengthSqr (Rotate L rb.vel a) = LengthSqr rb.vel :=
    fun a => LengthSqr_Rotate L rb.vel a (hcs a)
  refine ⟨hneg1, hpos1, ?_, ?_, ?_, Avoid_of_none L rb probeLength dt obstacles⟩
  · intro h
    have hrot : ∃ a : F, rb.vel + Avoid L rb probeLength dt obstacles * dt =
        Rotate L rb.vel a := by
      cases h15 : obstacleDetected L rb probeLength obstacles (-15) with
      | true => exact ⟨_, hneg1 (Or.inl h15)⟩
      | false =>
        cases h30 : obstacleDetected L rb probeLength obstacles (-30) with
        | true => exact ⟨_, hneg1 (Or.inr h30)⟩
        | false =>
          refine ⟨_, hpos1 h15 h30 ?_⟩
          rcases h with h | h | h | h
          · rw [h15] at h; exact Bool.noConfusion h
          · rw [h30] at h; exact Bool.noConfusion h
          · exact Or.inl h
          · exact Or.inr h
    obtain ⟨a, ha⟩ := hrot
    rw [ha]
    exact ⟨by rw [Length, Length, hsq a], hsq a⟩
  · rw [avoid_of_neg L rb dt _ hpos (by norm_num), avoid_of_neg L rb dt _ hpos (by norm_num)]
  · rw [avoid_of_pos L rb dt _ hneg (by norm_num), avoid_of_pos L rb dt _ hneg (by norm_num)]

/-- C8 on the enemy moving along (3, 4) at speed 500 with `dt = 1/60` and an obstacle
on its -15 degree probe: the velocity after the correction is the old one rotated by
`angularSpeed * dt = 11/189`, still of length 500. -/
theorem C8_avoid_reaches_rotated_velocity_witness :
    (enemyMoving 0).vel ≠ 0 ∧ (0 : ℚ) < 1 / 60 ∧
    ratLib.sqrtf (LengthSqr (enemyMoving 0).vel) = 500 ∧
    obstacleDetected ratLib (enemyMoving 0).toRigidbody 100 [⟨⟨178, 162⟩, 5⟩] (-15) = true ∧
    (enemyMoving 0).vel +
        Avoid ratLib (enemyMoving 0).toRigidbody 100 (1 / 60) [⟨⟨178, 162⟩, 5⟩] * (1 / 60 : ℚ) =
      Rotate ratLib (enemyMoving 0).vel ((enemyMoving 0).angularSpeed * (1 / 60)) ∧
    Rotate ratLib (enemyMoving 0).vel ((enemyMoving 0).angularSpeed * (1 / 60)) =
      ⟨7900500 / 28601, 11920000 / 28601⟩ ∧
    Length ratLib ((enemyMoving 0).vel +
        Avoid ratLib (enemyMoving 0).toRigidbody 100 (1 / 60) [⟨⟨178, 162⟩, 5⟩] * (1 / 60 : ℚ)) =
      500 := by
  have hv : (enemyMoving 0).vel ≠ 0 := by
    intro h
    have h2 := (Vector2.eq_iff _ _).mp h
    norm_num [enemyMoving, Vector2.zero_x, Vector2.zero_y] at h2
  have hlen : ratLib.sqrtf (LengthSqr (enemyMoving 0).vel) = 500 := enemyMoving_Length 0
  have key := C8_avoid_reaches_rotated_velocity ratLib (enemyMoving 0).toRigidbody 100 (1 / 60)
    [⟨⟨178, 162⟩, 5⟩] hv (by norm_num) (by rw [hlen]; norm_num)
    (by rw [hlen]; norm_num [LengthSqr, enemyMoving]) ratLib_cos_sin
    (by intro a ha; simp [ratLib, specLib, not_lt.mpr ha.le])
    (by intro a ha; simp [ratLib, specLib, ha])
  refine ⟨hv, by norm_num, hlen, enemyMoving_probe_first 0,
    key.1 (Or.inl (enemyMoving_probe_first 0)), ?_, ?_⟩
  · norm_num [Rotate, ratLib, specLib, enemyMoving]
  · rw [(key.2.2.1 (Or.inl (enemyMoving_probe_first 0))).1]
    exact enemyMoving_Length 0

/-- C7 fails: with the behaviour tree's acceleration at (100, 0) and the -15 degree
probe obstructed, the acceleration carried into `Integrate` is not the one `Avoid`
returned. -/
theorem C7_avoidance_does_not_override :
    obstacleDetected ratLib (enemyMoving ⟨100, 0⟩).toRigidbody
      (enemyMoving ⟨100, 0⟩).probeLength [⟨⟨178, 162⟩, 5⟩] (-15) = true ∧
    (applyAvoidance ratLib (1 / 60) [⟨⟨178, 162⟩, 5⟩] (enemyMoving ⟨100, 0⟩)).acc ≠
      Avoid ratLib (enemyMoving ⟨100, 0⟩).toRigidbody (enemyMoving ⟨100, 0⟩).probeLength
        (1 / 60) [⟨⟨178, 162⟩, 5⟩] := by
  refine ⟨enemyMoving_probe_first _, ?_⟩
  show (enemyMoving ⟨100, 0⟩).acc + Avoid ratLib (enemyMoving ⟨100, 0⟩).toRigidbody
    (enemyMoving ⟨100, 0⟩).probeLength (1 / 60) [⟨⟨178, 162⟩, 5⟩] ≠ _
  rw [Ne, Vector2.add_eq_right_iff]
  intro h
  have h2 := (Vector2.eq_iff _ _).mp h
  norm_num [enemyMoving, Vector2.zero_x, Vector2.zero_y] at h2

/-- C7, amended: in the enemy update (`Traverse`, avoidance, `Integrate`) the enemy
handed to `Integrate` is the one the behaviour tree left, with the acceleration
returned by `Avoid` added to its acceleration and nothing else changed; that sum is
`Avoid`'s acceleration exactly when the tree left a zero acceleration; with no probe
obstructed the enemy, and so the tree's acceleration, is passed on unchanged. -/
theorem C7_avoidance_is_added (L : Lib F) (Traverse : Enemy F → Enemy F)
    (Integrate : Enemy F → F → Enemy F) (dt : F) (obstacles : List (Circle F))
    (enemy : Enemy F) :
    updateEnemy L Traverse Integrate dt obstacles enemy =
      Integrate
        { Traverse enemy with
          acc := (Traverse enemy).acc +
            Avoid L (Traverse enemy).toRigidbody (Traverse enemy).probeLength dt obstacles }
        dt ∧
    ((applyAvoidance L dt obstacles (Traverse enemy)).acc =
        Avoid L (Traverse enemy).toRigidbody (Traverse enemy).probeLength dt obstacles ↔
      (Traverse enemy).acc = 0) ∧
    (obstacleDetected L (Traverse enemy).toRigidbody (Traverse enemy).probeLength
        obstacles (-15) = false →
      obstacleDetected L (Traverse enemy).toRigidbody (Traverse enemy).probeLength
        obstacles (-30) = false →
      obstacleDetected L (Traverse enemy).toRigidbody (Traverse enemy).probeLength
        obstacles 15 = false →
      obstacleDetected L (Traverse enemy).toRigidbody (Traverse enemy).probeLength
        obstacles 30 = false →
      applyAvoidance L dt obstacles (Traverse enemy) = Traverse enemy ∧
      updateEnemy L Traverse Integrate dt obstacles enemy = Integrate (Traverse enemy) dt) := by
  refine ⟨rfl, ?_, ?_⟩
  · show (Traverse enemy).acc + _ = _ ↔ _
    exact Vector2.add_eq_right_iff _ _
  · intro h1 h2 h3 h4
    have hstep : applyAvoidance L dt obstacles (Traverse enemy) = Traverse enemy := by
      unfold applyAvoidance
      rw [Avoid_of_none L _ _ dt obstacles h1 h2 h3 h4, Vector2.add_zero_right]
    exact ⟨hstep, by rw [updateEnemy, hstep]⟩

end AvoidClaims

end Sunshine
